import Mathlib

/-!
Shallow embedding of `ppb/camera.py`: the `Camera` class (integer-ratio
dimension solver, frame geometry, game-to-screen mapping) and the legacy
`OldCamera` class (caller-supplied float ratio, per-access frame edges,
cached viewport offset).  Python floats are modelled by exact rationals
(`ℚ`); Python's `int(...)` truncation and its `ValueError` /
`ZeroDivisionError` control flow are modelled explicitly.
-/

namespace PPB

/-- The 2-D vector value type (external `ppb_vector.Vector`): immutable pair
with component access, arithmetic, and scalar multiplication/division. -/
structure Vector where
  x : ℚ
  y : ℚ
deriving DecidableEq, Repr

instance : HMul Vector ℚ Vector where
  hMul v k := ⟨v.x * k, v.y * k⟩

instance : HDiv Vector ℚ Vector where
  hDiv v k := ⟨v.x / k, v.y / k⟩

/-- Python `int(q)` on a (here: exact-rational) number: truncation toward
zero. -/
def pyInt (q : ℚ) : ℤ := if 0 ≤ q then ⌊q⌋ else ⌈q⌉

/-- The exceptions the embedded code can raise: `ValueError` (the module's
`InvalidArgument` validation error) and `ZeroDivisionError`. -/
inductive PyError where
  | valueError
  | zeroDivisionError
deriving DecidableEq, Repr

/-- State of `ppb.camera.Camera`: logical centre `position` (class attribute
`Vector(0, 0)`), the fixed pixel `viewport_dimensions`, and the derived
triple `pixel_ratio` / `_width` / `_height` maintained by
`_set_dimensions`. -/
structure Camera where
  position : Vector
  viewport_dimensions : ℤ × ℤ
  pixel_ratio : ℤ
  _width : ℚ
  _height : ℚ
deriving DecidableEq, Repr

namespace Camera

/-- `Camera._set_dimensions`.  The result is `Except.error (e, c')` when the
Python code raises exception `e` with the instance's fields in state `c'` at
raise time (the `ValueError`s fire before any assignment; the
`ZeroDivisionError` from `viewport_width / self.pixel_ratio` fires after
`self.pixel_ratio` was already assigned). -/
def _set_dimensions (c : Camera) (target_width target_height : Option ℚ) :
    Except (PyError × Camera) Camera :=
  let viewport_width : ℚ := (c.viewport_dimensions.1 : ℚ)
  let viewport_height : ℚ := (c.viewport_dimensions.2 : ℚ)
  match target_width, target_height with
  | some _, some _ => .error (.valueError, c)
  | none, none => .error (.valueError, c)
  | some tw, none =>
    if tw = 0 then .error (.zeroDivisionError, c)
    else
      let ratio := pyInt (viewport_width / tw)
      if ratio = 0 then .error (.zeroDivisionError, { c with pixel_ratio := ratio })
      else .ok { c with pixel_ratio := ratio,
                        _width := viewport_width / (ratio : ℚ),
                        _height := viewport_height / (ratio : ℚ) }
  | none, some th =>
    if th = 0 then .error (.zeroDivisionError, c)
    else
      let ratio := pyInt (viewport_height / th)
      if ratio = 0 then .error (.zeroDivisionError, { c with pixel_ratio := ratio })
      else .ok { c with pixel_ratio := ratio,
                        _width := viewport_width / (ratio : ℚ),
                        _height := viewport_height / (ratio : ℚ) }

/-- `Camera.__init__(renderer, target_game_unit_width, viewport_dimensions)`
(the renderer reference plays no part in the geometry).  Python initialises
`pixel_ratio`, `_width`, `_height` to `None` before the `_set_dimensions`
call; the placeholder zeros here are overwritten on the success path and a
failing constructor yields no object. -/
def init (target_game_unit_width : ℚ) (viewport_dimensions : ℤ × ℤ) :
    Except (PyError × Camera) Camera :=
  _set_dimensions
    { position := ⟨0, 0⟩
      viewport_dimensions := viewport_dimensions
      pixel_ratio := 0
      _width := 0
      _height := 0 }
    (some target_game_unit_width) none

/-- `Camera.width` getter. -/
def width (c : Camera) : ℚ := c._width

/-- `Camera.height` getter. -/
def height (c : Camera) : ℚ := c._height

/-- `Camera.width` setter. -/
def set_width (c : Camera) (target_width : ℚ) : Except (PyError × Camera) Camera :=
  c._set_dimensions (some target_width) none

/-- `Camera.height` setter. -/
def set_height (c : Camera) (target_height : ℚ) : Except (PyError × Camera) Camera :=
  c._set_dimensions none (some target_height)

/-- `Camera.bottom`. -/
def bottom (c : Camera) : ℚ := c.position.y - c.height / 2

/-- `Camera.left`. -/
def left (c : Camera) : ℚ := c.position.x - c.width / 2

/-- `Camera.right`. -/
def right (c : Camera) : ℚ := c.position.x + c.width / 2

/-- `Camera.top`. -/
def top (c : Camera) : ℚ := c.position.y + c.height / 2

/-- `Camera.top_left`. -/
def top_left (c : Camera) : Vector := ⟨c.left, c.top⟩

/-- `Camera.top_right`. -/
def top_right (c : Camera) : Vector := ⟨c.right, c.top⟩

/-- `Camera.bottom_left`. -/
def bottom_left (c : Camera) : Vector := ⟨c.left, c.bottom⟩

/-- `Camera.bottom_right`. -/
def bottom_right (c : Camera) : Vector := ⟨c.right, c.bottom⟩

/-- `Camera.point_is_visible`. -/
def point_is_visible (c : Camera) (point : Vector) : Bool :=
  decide (c.left ≤ point.x ∧ point.x ≤ c.right)
    && decide (c.bottom ≤ point.y ∧ point.y ≤ c.top)

/-- `Camera.translate_point_to_screen`:
`Vector(point.x - self.left, self.top - point.y) * self.pixel_ratio`. -/
def translate_point_to_screen (c : Camera) (point : Vector) : Vector :=
  (⟨point.x - c.left, c.top - point.y⟩ : Vector) * (c.pixel_ratio : ℚ)

end Camera

/-- Axis-aligned bounds of a sprite in game units, the external interface
`OldCamera.in_frame` consumes (`sprite.left/right/top/bottom`). -/
structure Rect where
  left : ℚ
  right : ℚ
  top : ℚ
  bottom : ℚ
deriving DecidableEq, Repr

/-- State of `ppb.camera.OldCamera` (a `Sprite` of size 0): caller-supplied
float `pixel_ratio`, independently mutable viewport width/height, and the
cached `viewport_offset`. -/
structure OldCamera where
  position : Vector
  size : ℚ
  viewport_origin : Vector
  _viewport_width : ℚ
  _viewport_height : ℚ
  viewport_offset : Vector
  pixel_ratio : ℚ
deriving DecidableEq, Repr

namespace OldCamera

/-- `OldCamera.__init__(viewport=(vp0, vp1, vp2, vp3), pixel_ratio)`. -/
def init (vp0 vp1 vp2 vp3 : ℚ) (pixel_ratio : ℚ) : OldCamera :=
  { position := ⟨0, 0⟩
    size := 0
    viewport_origin := ⟨vp0, vp1⟩
    _viewport_width := vp2
    _viewport_height := vp3
    viewport_offset := ⟨vp2 / 2, vp3 / 2⟩
    pixel_ratio := pixel_ratio }

/-- `OldCamera.viewport_width` getter. -/
def viewport_width (c : OldCamera) : ℚ := c._viewport_width

/-- `OldCamera.viewport_height` getter. -/
def viewport_height (c : OldCamera) : ℚ := c._viewport_height

/-- `OldCamera.viewport_width` setter: stores the new width and recomputes
the `viewport_offset` cache. -/
def set_viewport_width (c : OldCamera) (value : ℚ) : OldCamera :=
  { c with _viewport_width := value
           viewport_offset := ⟨value / 2, c.viewport_height / 2⟩ }

/-- `OldCamera.viewport_height` setter: stores the new height and recomputes
the `viewport_offset` cache. -/
def set_viewport_height (c : OldCamera) (value : ℚ) : OldCamera :=
  { c with _viewport_height := value
           viewport_offset := ⟨c.viewport_width / 2, value / 2⟩ }

/-- `OldCamera.frame_height`. -/
def frame_height (c : OldCamera) : ℚ := c.viewport_height / c.pixel_ratio

/-- `OldCamera.frame_width`. -/
def frame_width (c : OldCamera) : ℚ := c.viewport_width / c.pixel_ratio

/-- `OldCamera.half_height`. -/
def half_height (c : OldCamera) : ℚ := c.frame_height / 2

/-- `OldCamera.half_width`. -/
def half_width (c : OldCamera) : ℚ := c.frame_width / 2

/-- `OldCamera.frame_top`. -/
def frame_top (c : OldCamera) : ℚ := c.position.y + c.half_height

/-- `OldCamera.frame_bottom`. -/
def frame_bottom (c : OldCamera) : ℚ := c.position.y - c.half_height

/-- `OldCamera.frame_left`. -/
def frame_left (c : OldCamera) : ℚ := c.position.x - c.half_width

/-- `OldCamera.frame_right`. -/
def frame_right (c : OldCamera) : ℚ := c.position.x + c.half_width

/-- `OldCamera.point_in_viewport`. -/
def point_in_viewport (c : OldCamera) (point : Vector) : Bool :=
  decide (c.viewport_origin.x ≤ point.x ∧ point.x ≤ c.viewport_width + c.viewport_origin.x)
    && decide (c.viewport_origin.y ≤ point.y ∧ point.y ≤ c.viewport_height + c.viewport_origin.y)

/-- `OldCamera.in_frame`. -/
def in_frame (c : OldCamera) (sprite : Rect) : Bool :=
  decide (c.frame_left ≤ sprite.right)
    && decide (c.frame_right ≥ sprite.left)
    && decide (c.frame_top ≥ sprite.bottom)
    && decide (c.frame_bottom ≤ sprite.top)

/-- `OldCamera.translate_to_frame`: scale from pixels to game units, then
reposition relative to the frame edges. -/
def translate_to_frame (c : OldCamera) (point : Vector) : Vector :=
  let scaled := point / c.pixel_ratio
  ⟨c.frame_left + scaled.x, c.frame_top - scaled.y⟩

/-- `OldCamera.translate_to_viewport`: reposition based on the frame edges,
then scale from game units to pixels. -/
def translate_to_viewport (c : OldCamera) (point : Vector) : Vector :=
  (⟨point.x - c.frame_left, c.frame_top - point.y⟩ : Vector) * c.pixel_ratio

end OldCamera

/-- Discriminator for the module's one validation error (`InvalidArgument`
in the spec, raised as Python `ValueError` by `_set_dimensions`). -/
def raisesInvalidArgument (r : Except (PyError × Camera) Camera) : Bool :=
  match r with
  | .error (.valueError, _) => true
  | _ => false

/-- A mutation of the legacy camera through one of its two viewport
setters. -/
inductive Mut where
  | setW (value : ℚ)
  | setH (value : ℚ)

/-- Apply one setter mutation to an `OldCamera`. -/
def applyMut (c : OldCamera) : Mut → OldCamera
  | .setW v => c.set_viewport_width v
  | .setH v => c.set_viewport_height v

/-- The legacy cache invariant: `viewport_offset` holds half the viewport
dimensions. -/
def offset_invariant (c : OldCamera) : Prop :=
  c.viewport_offset = ⟨c.viewport_width / 2, c.viewport_height / 2⟩

/-- The camera produced by `Camera(renderer, 8, (800, 600))`: pixel ratio
100, frame 8 by 6 game units, centred at the origin. -/
def camA : Camera :=
  { position := ⟨0, 0⟩
    viewport_dimensions := (800, 600)
    pixel_ratio := 100
    _width := 8
    _height := 6 }

end PPB

deriving instance DecidableEq for Except

namespace PPB

theorem Vector.mul_def (v : Vector) (k : ℚ) : v * k = ⟨v.x * k, v.y * k⟩ := rfl

theorem Vector.div_def (v : Vector) (k : ℚ) : v / k = ⟨v.x / k, v.y / k⟩ := rfl

theorem pyInt_eq_floor (q : ℚ) (h : 0 ≤ q) : pyInt q = ⌊q⌋ := by
  simp [pyInt, h]

namespace Camera

/-- Successful dimension solve with a width target: the realized triple. -/
theorem set_dimensions_target_width (c : Camera) (tw : ℚ)
    (h1 : 0 < tw) (h2 : tw ≤ (c.viewport_dimensions.1 : ℚ)) :
    c._set_dimensions (some tw) none = Except.ok
      { c with pixel_ratio := ⌊(c.viewport_dimensions.1 : ℚ) / tw⌋,
               _width := (c.viewport_dimensions.1 : ℚ) /
                 ((⌊(c.viewport_dimensions.1 : ℚ) / tw⌋ : ℤ) : ℚ),
               _height := (c.viewport_dimensions.2 : ℚ) /
                 ((⌊(c.viewport_dimensions.1 : ℚ) / tw⌋ : ℤ) : ℚ) } := by
  have hq : (1 : ℚ) ≤ (c.viewport_dimensions.1 : ℚ) / tw := (one_le_div h1).mpr h2
  have hge : 1 ≤ ⌊(c.viewport_dimensions.1 : ℚ) / tw⌋ :=
    Int.le_floor.mpr (by exact_mod_cast hq)
  have h0 : (0 : ℚ) ≤ (c.viewport_dimensions.1 : ℚ) / tw := le_trans zero_le_one hq
  have hne : ⌊(c.viewport_dimensions.1 : ℚ) / tw⌋ ≠ 0 := by omega
  simp [_set_dimensions, pyInt, h0, h1.ne', hne]

/-- Successful dimension solve with a height target: the realized triple. -/
theorem set_dimensions_target_height (c : Camera) (th : ℚ)
    (h1 : 0 < th) (h2 : th ≤ (c.viewport_dimensions.2 : ℚ)) :
    c._set_dimensions none (some th) = Except.ok
      { c with pixel_ratio := ⌊(c.viewport_dimensions.2 : ℚ) / th⌋,
               _width := (c.viewport_dimensions.1 : ℚ) /
                 ((⌊(c.viewport_dimensions.2 : ℚ) / th⌋ : ℤ) : ℚ),
               _height := (c.viewport_dimensions.2 : ℚ) /
                 ((⌊(c.viewport_dimensions.2 : ℚ) / th⌋ : ℤ) : ℚ) } := by
  have hq : (1 : ℚ) ≤ (c.viewport_dimensions.2 : ℚ) / th := (one_le_div h1).mpr h2
  have hge : 1 ≤ ⌊(c.viewport_dimensions.2 : ℚ) / th⌋ :=
    Int.le_floor.mpr (by exact_mod_cast hq)
  have h0 : (0 : ℚ) ≤ (c.viewport_dimensions.2 : ℚ) / th := le_trans zero_le_one hq
  have hne : ⌊(c.viewport_dimensions.2 : ℚ) / th⌋ ≠ 0 := by omega
  simp [_set_dimensions, pyInt, h0, h1.ne', hne]

end Camera

/-- C1: the claim quantifies over every positive `target_width`, but when
`target_width` exceeds the viewport pixel width the integer ratio floors to
0 and `_set_dimensions` raises `ZeroDivisionError` (after assigning
`pixel_ratio := 0`) instead of setting the width and height: at viewport
(800, 600) and `target_width = 1000` the call errors out. -/
theorem C1_counterexample :
    Camera._set_dimensions camA (some 1000) none =
      Except.error (PyError.zeroDivisionError, { camA with pixel_ratio := 0 }) ∧
    (Camera._set_dimensions camA (some 1000) none).isOk = false := by
  have h : Camera._set_dimensions camA (some 1000) none =
      Except.error (PyError.zeroDivisionError, { camA with pixel_ratio := 0 }) := by
    norm_num [Camera._set_dimensions, camA, pyInt]
  exact ⟨h, by rw [h]; rfl⟩

/-- C1 (amended): for positive `target_width` not exceeding the viewport
pixel width, `_set_dimensions` succeeds and sets
`pixel_ratio = ⌊viewport_w / target_width⌋`,
`width = viewport_w / pixel_ratio` and `height = viewport_h / pixel_ratio`;
symmetrically with `target_height` against `viewport_h`. -/
theorem C1_dimension_solve (c : Camera) (tw th : ℚ) :
    (0 < tw → tw ≤ (c.viewport_dimensions.1 : ℚ) →
      c._set_dimensions (some tw) none = Except.ok
        { c with pixel_ratio := ⌊(c.viewport_dimensions.1 : ℚ) / tw⌋,
                 _width := (c.viewport_dimensions.1 : ℚ) /
                   ((⌊(c.viewport_dimensions.1 : ℚ) / tw⌋ : ℤ) : ℚ),
                 _height := (c.viewport_dimensions.2 : ℚ) /
                   ((⌊(c.viewport_dimensions.1 : ℚ) / tw⌋ : ℤ) : ℚ) }) ∧
    (0 < th → th ≤ (c.viewport_dimensions.2 : ℚ) →
      c._set_dimensions none (some th) = Except.ok
        { c with pixel_ratio := ⌊(c.viewport_dimensions.2 : ℚ) / th⌋,
                 _width := (c.viewport_dimensions.1 : ℚ) /
                   ((⌊(c.viewport_dimensions.2 : ℚ) / th⌋ : ℤ) : ℚ),
                 _height := (c.viewport_dimensions.2 : ℚ) /
                   ((⌊(c.viewport_dimensions.2 : ℚ) / th⌋ : ℤ) : ℚ) }) :=
  ⟨fun h1 h2 => Camera.set_dimensions_target_width c tw h1 h2,
   fun h1 h2 => Camera.set_dimensions_target_height c th h1 h2⟩

/-- Witness for C1 at viewport (800, 600) with `target_width = 8`. -/
theorem C1_dimension_solve_witness :
    Camera._set_dimensions camA (some 8) none =
      Except.ok { camA with pixel_ratio := 100, _width := 8, _height := 6 } := by
  rw [(C1_dimension_solve camA 8 6).1 (by norm_num [camA]) (by norm_num [camA])]
  norm_num [camA]

/-- C2: for the legacy camera with nonzero pixel ratio,
`translate_to_frame` and `translate_to_viewport` are exact two-sided
inverses over exact arithmetic. -/
theorem C2_roundtrip (c : OldCamera) (p : Vector) (h : c.pixel_ratio ≠ 0) :
    c.translate_to_frame (c.translate_to_viewport p) = p ∧
    c.translate_to_viewport (c.translate_to_frame p) = p := by
  obtain ⟨px, py⟩ := p
  constructor <;>
    · simp only [OldCamera.translate_to_frame, OldCamera.translate_to_viewport,
        Vector.mul_def, Vector.div_def, Vector.mk.injEq]
      constructor <;>
        · field_simp
          try ring

/-- Witness for C2: the default legacy camera (viewport 800 by 600, pixel
ratio 64) round-trips the point (10, 20) in both directions. -/
theorem C2_roundtrip_witness :
    (OldCamera.init 0 0 800 600 64).translate_to_frame
        ((OldCamera.init 0 0 800 600 64).translate_to_viewport ⟨10, 20⟩) = ⟨10, 20⟩ ∧
    (OldCamera.init 0 0 800 600 64).translate_to_viewport
        ((OldCamera.init 0 0 800 600 64).translate_to_frame ⟨10, 20⟩) = ⟨10, 20⟩ :=
  C2_roundtrip (OldCamera.init 0 0 800 600 64) ⟨10, 20⟩ (by norm_num [OldCamera.init])

/-- C3: `_set_dimensions` raises the validation error (`InvalidArgument`,
Python `ValueError`) exactly when both targets or neither target is
supplied; with exactly one target and non-degenerate input (positive, not
exceeding the matching viewport pixel dimension) no exception is raised. -/
theorem C3_invalid_argument (c : Camera) (otw oth : Option ℚ) :
    (raisesInvalidArgument (c._set_dimensions otw oth) = true ↔
      (otw.isSome = true ∧ oth.isSome = true) ∨ (otw = none ∧ oth = none)) ∧
    (∀ tw : ℚ, 0 < tw → tw ≤ (c.viewport_dimensions.1 : ℚ) →
      ∃ c', c._set_dimensions (some tw) none = Except.ok c') ∧
    (∀ th : ℚ, 0 < th → th ≤ (c.viewport_dimensions.2 : ℚ) →
      ∃ c', c._set_dimensions none (some th) = Except.ok c') := by
  refine ⟨?_, ?_, ?_⟩
  · rcases otw with _ | tw <;> rcases oth with _ | th <;>
      simp only [Camera._set_dimensions] <;>
      (try split) <;> (try split) <;>
      simp [raisesInvalidArgument]
  · exact fun tw h1 h2 => ⟨_, Camera.set_dimensions_target_width c tw h1 h2⟩
  · exact fun th h1 h2 => ⟨_, Camera.set_dimensions_target_height c th h1 h2⟩

/-- Witness for C3 at viewport (800, 600): passing both 800 and 450 raises
the validation error, passing neither raises it, and the single target 8
succeeds. -/
theorem C3_invalid_argument_witness :
    raisesInvalidArgument (Camera._set_dimensions camA (some 800) (some 450)) = true ∧
    raisesInvalidArgument (Camera._set_dimensions camA none none) = true ∧
    ∃ c', Camera._set_dimensions camA (some 8) none = Except.ok c' := by
  refine ⟨(C3_invalid_argument camA (some 800) (some 450)).1.mpr (Or.inl (by simp)),
    (C3_invalid_argument camA none none).1.mpr (Or.inr ⟨rfl, rfl⟩),
    (C3_invalid_argument camA (some 8) none).2.1 8 (by norm_num) (by norm_num [camA])⟩

/-- C4: `point_is_visible` holds exactly on the closed frame rectangle:
inclusive at `left`, `right`, `bottom` and `top`, false strictly beyond any
edge. -/
theorem C4_point_is_visible (c : Camera) (p : Vector) :
    c.point_is_visible p = true ↔
      (c.left ≤ p.x ∧ p.x ≤ c.right ∧ c.bottom ≤ p.y ∧ p.y ≤ c.top) := by
  simp [Camera.point_is_visible, and_assoc]

/-- C5: `in_frame` is the inclusive axis-aligned overlap test
`frame_left ≤ other.right ∧ frame_right ≥ other.left ∧
frame_top ≥ other.bottom ∧ frame_bottom ≤ other.top`; in particular an
edge-touching rectangle (with `frame_left = other.right` exactly) counts as
overlapping. -/
theorem C5_in_frame (c : OldCamera) (r : Rect) :
    (c.in_frame r = true ↔
      (c.frame_left ≤ r.right ∧ c.frame_right ≥ r.left ∧
       c.frame_top ≥ r.bottom ∧ c.frame_bottom ≤ r.top)) ∧
    (c.frame_left = r.right → c.frame_right ≥ r.left → c.frame_top ≥ r.bottom →
      c.frame_bottom ≤ r.top → c.in_frame r = true) := by
  constructor
  · simp [OldCamera.in_frame, and_assoc]
  · intro h1 h2 h3 h4
    simp [OldCamera.in_frame, and_assoc, le_of_eq h1, h2, h3, h4]

/-- Witness for C5: the default legacy camera (frame edges at x = ±25/4)
reports a rectangle whose right edge exactly touches `frame_left` as in
frame. -/
theorem C5_in_frame_witness :
    (OldCamera.init 0 0 800 600 64).in_frame ⟨-10, -(25/4 : ℚ), 1, -1⟩ = true := by
  refine (C5_in_frame (OldCamera.init 0 0 800 600 64) ⟨-10, -(25/4 : ℚ), 1, -1⟩).2
    ?_ ?_ ?_ ?_ <;>
    norm_num [OldCamera.init, OldCamera.frame_left, OldCamera.frame_right,
      OldCamera.frame_top, OldCamera.frame_bottom, OldCamera.half_width,
      OldCamera.half_height, OldCamera.frame_width, OldCamera.frame_height,
      OldCamera.viewport_width, OldCamera.viewport_height]

/-- C6: constructing the camera with viewport (800, 600) and target width 8
yields pixel ratio 100, width 8 and height 6, and with position (0, 0) the
game point (4, 3) maps to the pixel point (800, 0). -/
theorem C6_example :
    Camera.init 8 (800, 600) = Except.ok camA ∧
    camA.pixel_ratio = 100 ∧ camA.width = 8 ∧ camA.height = 6 ∧
    camA.position = ⟨0, 0⟩ ∧
    camA.translate_point_to_screen ⟨4, 3⟩ = ⟨800, 0⟩ := by
  refine ⟨?_, rfl, rfl, rfl, rfl, ?_⟩
  · rw [Camera.init, Camera.set_dimensions_target_width _ 8 (by norm_num) (by norm_num)]
    norm_num [camA]
  · norm_num [Camera.translate_point_to_screen, Camera.left, Camera.top,
      Camera.width, Camera.height, camA, Vector.mul_def]

/-- Every setter mutation re-establishes the offset cache invariant. -/
theorem applyMut_offset_invariant (c : OldCamera) (m : Mut) :
    offset_invariant (applyMut c m) := by
  cases m <;>
    simp [applyMut, offset_invariant, OldCamera.set_viewport_width,
      OldCamera.set_viewport_height, OldCamera.viewport_width,
      OldCamera.viewport_height]

/-- The offset cache invariant survives any mutation sequence. -/
theorem foldl_offset_invariant (ms : List Mut) (c : OldCamera)
    (h : offset_invariant c) : offset_invariant (ms.foldl applyMut c) := by
  induction ms generalizing c with
  | nil => exact h
  | cons m ms ih => exact ih _ (applyMut_offset_invariant c m)

/-- C7: after construction, and after any sequence of mutations through the
`viewport_width` / `viewport_height` setters, the legacy camera satisfies
`viewport_offset = (viewport_width / 2, viewport_height / 2)`: the cache is
never observably stale once a setter completes. -/
theorem C7_offset_invariant (vp0 vp1 vp2 vp3 pr : ℚ) (ms : List Mut) :
    offset_invariant (ms.foldl applyMut (OldCamera.init vp0 vp1 vp2 vp3 pr)) :=
  foldl_offset_invariant ms _ rfl

/-- C8: a `viewport_width` mutation stores the new width and recomputes
`viewport_offset.x`, preserving position, pixel ratio, viewport origin,
viewport height, size and `viewport_offset.y` (given the offset cache was in
sync, as it is in every reachable state); symmetrically for
`viewport_height`. -/
theorem C8_viewport_setter_frame (c : OldCamera) (v : ℚ)
    (h : offset_invariant c) :
    ((c.set_viewport_width v)._viewport_width = v ∧
     (c.set_viewport_width v).viewport_offset.x = v / 2 ∧
     (c.set_viewport_width v).viewport_offset.y = c.viewport_offset.y ∧
     (c.set_viewport_width v).position = c.position ∧
     (c.set_viewport_width v).pixel_ratio = c.pixel_ratio ∧
     (c.set_viewport_width v).viewport_origin = c.viewport_origin ∧
     (c.set_viewport_width v)._viewport_height = c._viewport_height ∧
     (c.set_viewport_width v).size = c.size) ∧
    ((c.set_viewport_height v)._viewport_height = v ∧
     (c.set_viewport_height v).viewport_offset.y = v / 2 ∧
     (c.set_viewport_height v).viewport_offset.x = c.viewport_offset.x ∧
     (c.set_viewport_height v).position = c.position ∧
     (c.set_viewport_height v).pixel_ratio = c.pixel_ratio ∧
     (c.set_viewport_height v).viewport_origin = c.viewport_origin ∧
     (c.set_viewport_height v)._viewport_width = c._viewport_width ∧
     (c.set_viewport_height v).size = c.size) := by
  have hx : c.viewport_offset.x = c.viewport_width / 2 := by rw [h]
  have hy : c.viewport_offset.y = c.viewport_height / 2 := by rw [h]
  simp [OldCamera.set_viewport_width, OldCamera.set_viewport_height, hx, hy,
    OldCamera.viewport_width, OldCamera.viewport_height]

/-- Witness for C8: mutating the default legacy camera's width from 800 to
640 moves `viewport_offset.x` from 400 to 320 and keeps `viewport_offset.y`
and the pixel ratio. -/
theorem C8_viewport_setter_frame_witness :
    (OldCamera.init 0 0 800 600 64).viewport_offset.x = 400 ∧
    ((OldCamera.init 0 0 800 600 64).set_viewport_width 640)._viewport_width = 640 ∧
    ((OldCamera.init 0 0 800 600 64).set_viewport_width 640).viewport_offset.x = 320 ∧
    ((OldCamera.init 0 0 800 600 64).set_viewport_width 640).viewport_offset.y =
      (OldCamera.init 0 0 800 600 64).viewport_offset.y ∧
    ((OldCamera.init 0 0 800 600 64).set_viewport_width 640).pixel_ratio =
      (OldCamera.init 0 0 800 600 64).pixel_ratio := by
  obtain ⟨⟨h1, h2, h3, h4, h5, h6, h7, h8⟩, -⟩ :=
    C8_viewport_setter_frame (OldCamera.init 0 0 800 600 64) 640 rfl
  refine ⟨by norm_num [OldCamera.init], h1, ?_, h3, h5⟩
  rw [h2]; norm_num

/-- C9: when `_set_dimensions` raises its validation error (both targets
supplied, or neither), the raise happens before any field assignment: the
camera state carried at raise time is exactly the pre-call state. -/
theorem C9_validation_atomicity (c : Camera) (otw oth : Option ℚ)
    (h : (otw.isSome = true ∧ oth.isSome = true) ∨ (otw = none ∧ oth = none)) :
    c._set_dimensions otw oth = Except.error (PyError.valueError, c) := by
  rcases h with ⟨h1, h2⟩ | ⟨h1, h2⟩
  · rcases otw with _ | tw
    · simp at h1
    rcases oth with _ | th
    · simp at h2
    rfl
  · subst h1; subst h2; rfl

/-- Witness for C9: the no-target call on the concrete camera errors with
the state unchanged. -/
theorem C9_validation_atomicity_witness :
    Camera._set_dimensions camA none none = Except.error (PyError.valueError, camA) :=
  C9_validation_atomicity camA none none (Or.inr ⟨rfl, rfl⟩)

/-- C10: for a positive width target not exceeding the viewport pixel width,
the dimension solve succeeds with `pixel_ratio ≥ 1` (so the divisions
defining width and height are well-defined) and the realized width is at
least the requested target: the floored ratio can only widen the frame,
never narrow it (contrary to the constructor docstring's "may be less
than"). -/
theorem C10_realized_width_ge_target (c : Camera) (tw : ℚ)
    (h1 : 0 < tw) (h2 : tw ≤ (c.viewport_dimensions.1 : ℚ)) :
    ∃ c', c._set_dimensions (some tw) none = Except.ok c' ∧
      1 ≤ c'.pixel_ratio ∧ tw ≤ c'._width ∧
      c'._width = (c.viewport_dimensions.1 : ℚ) / ((c'.pixel_ratio : ℤ) : ℚ) ∧
      c'._height = (c.viewport_dimensions.2 : ℚ) / ((c'.pixel_ratio : ℤ) : ℚ) := by
  have hq : (1 : ℚ) ≤ (c.viewport_dimensions.1 : ℚ) / tw := (one_le_div h1).mpr h2
  have hge : 1 ≤ ⌊(c.viewport_dimensions.1 : ℚ) / tw⌋ :=
    Int.le_floor.mpr (by exact_mod_cast hq)
  have hr1 : (1 : ℚ) ≤ ((⌊(c.viewport_dimensions.1 : ℚ) / tw⌋ : ℤ) : ℚ) := by
    exact_mod_cast hge
  have hr0 : (0 : ℚ) < ((⌊(c.viewport_dimensions.1 : ℚ) / tw⌋ : ℤ) : ℚ) :=
    lt_of_lt_of_le zero_lt_one hr1
  refine ⟨_, Camera.set_dimensions_target_width c tw h1 h2, hge, ?_, rfl, rfl⟩
  rw [le_div_iff₀ hr0]
  calc tw * ((⌊(c.viewport_dimensions.1 : ℚ) / tw⌋ : ℤ) : ℚ)
      ≤ tw * ((c.viewport_dimensions.1 : ℚ) / tw) :=
        mul_le_mul_of_nonneg_left (Int.floor_le _) h1.le
    _ = (c.viewport_dimensions.1 : ℚ) := by field_simp

/-- Witness for C10 at viewport (800, 600) with target width 8. -/
theorem C10_realized_width_ge_target_witness :
    ∃ c', Camera._set_dimensions camA (some 8) none = Except.ok c' ∧
      1 ≤ c'.pixel_ratio ∧ (8 : ℚ) ≤ c'._width := by
  obtain ⟨c', hok, hge, hw, -, -⟩ :=
    C10_realized_width_ge_target camA 8 (by norm_num) (by norm_num [camA])
  exact ⟨c', hok, hge, hw⟩

end PPB
